import Mathlib

/-!
Shallow embedding of the BotChat storefront bot (src/bot.py) and proofs
about its cart engine, size-selection memory, checkout state machine and
phone normalization.

Modelling conventions:
* All mutable stores in the source are Python dicts keyed by the Telegram
  user id (`cart`, `checkout_state`); every handler only ever touches the
  entry of the acting user, so the state is modelled per user: a cart is a
  `List Item` (a missing dict entry behaves exactly like `[]` in every
  handler, via `cart.get(uid, [])` / `if not cart.get(uid)`), and the
  checkout entry is an `Option SessionDict` (`none` = key absent).
* `checkout_state[uid]` in the source is a dict in which the keys
  `"step"`, `"data"` and `"selected_sizes"` may each be present or absent
  (`set_selected_size` creates an entry holding only `selected_sizes`);
  `SessionDict` therefore has three `Option` fields.  A lookup of an
  absent key with `[...]` raises `KeyError`, modelled by `PyExc.keyError`.
* Python `int` is `Int`; `str` is `String`; the `data` dict of a session
  only ever receives the four keys name/phone/address/comment and is
  modelled by the record `OrderData` with `Option` fields.
* Outbound telegram calls are modelled by the `Out` type (keyboards and
  chat ids are rendering detail and are elided; the admin order message
  text itself is reproduced).  The two sends that the spec's error
  taxonomy tracks may fail: `primary_fails` makes
  `bot.send_message(ADMIN_CHAT_ID, ...)` raise (modelled by
  `PyExc.sendError`, which propagates out of the handler exactly where
  the `await` sits), and `secondary_fails` makes `bot.send_contact`
  raise (caught by the source's `try/except: pass`).
* `re` patterns `[^\d+]` / `\D` / `\+998\d{9}` act on the claims' ASCII
  inputs exactly as `Char.isDigit`-based filters do.
-/

namespace BotChat

/-- Product record, as the `Product` dataclass of the source. The catalog
`PRODUCTS` is loaded once from `products.json` and is closed-world (every
`product_id` in a cart came from it), so it is modelled as a total
function `String → Product` passed where the source reads `PRODUCTS`. -/
structure Product where
  id : String
  name : String
  price : Int
  desc : String
  photo_url : String
deriving DecidableEq, Repr

/-- One cart line, as the dict `{"product_id": ..., "size": ..., "qty": ...}`
stored in the per-user list `cart[uid]`. -/
structure Item where
  product_id : String
  size : Int
  qty : Int
deriving DecidableEq, Repr

/-- The `"data"` dict of a checkout session: only the keys
name/phone/address/comment are ever written; an `Option` field is `none`
exactly when the key is absent. -/
structure OrderData where
  name : Option String
  phone : Option String
  address : Option String
  comment : Option String
deriving DecidableEq, Repr

/-- The fresh `{}` placed in `"data"` by `checkout_start`. -/
def emptyOrderData : OrderData := ⟨none, none, none, none⟩

/-- The per-user entry of `checkout_state`: a dict whose keys `"step"`,
`"data"` and `"selected_sizes"` may each be present or absent. -/
structure SessionDict where
  step : Option String
  data : Option OrderData
  selected_sizes : Option (List (String × Int))
deriving DecidableEq, Repr

/-- The empty dict `{}` used by `checkout_state.get(uid, {})` and
`checkout_state.setdefault(uid, {})`. -/
def emptySessionDict : SessionDict := ⟨none, none, none⟩

/-- Python dict assignment `d[k] = v` on a string-keyed dict modelled as an
association list: updates the existing binding in place or appends. -/
def dictInsert (d : List (String × Int)) (k : String) (v : Int) :
    List (String × Int) :=
  match d with
  | [] => [(k, v)]
  | (k0, v0) :: rest =>
      if k0 = k then (k0, v) :: rest else (k0, v0) :: dictInsert rest k v

/-- Python `d.get(k, dflt)` on the association list. -/
def dictGetD (d : List (String × Int)) (k : String) (dflt : Int) : Int :=
  match d with
  | [] => dflt
  | (k0, v0) :: rest => if k0 = k then v0 else dictGetD rest k dflt

/-- `get_selected_size` of the source: reads `checkout_state.get(uid, {})`,
then `.get("selected_sizes", {})`, then `.get(product_id, 17)`. -/
def get_selected_size (st : Option SessionDict) (product_id : String) : Int :=
  let s := st.getD emptySessionDict
  let selected := s.selected_sizes.getD []
  dictGetD selected product_id 17

/-- `set_selected_size` of the source: `checkout_state.setdefault(uid, {})`,
`st.setdefault("selected_sizes", {})`, then assignment into that dict.
Returns the (always present afterwards) per-user session entry. -/
def set_selected_size (st : Option SessionDict) (product_id : String)
    (size : Int) : SessionDict :=
  let s := st.getD emptySessionDict
  let selected := s.selected_sizes.getD []
  { s with selected_sizes := some (dictInsert selected product_id size) }

/-- The merge loop of `add_to_cart`: first line with the same
`(product_id, size)` gets `qty += 1`, otherwise a fresh line with `qty = 1`
is appended at the end. -/
def addLine (items : List Item) (product_id : String) (size : Int) :
    List Item :=
  match items with
  | [] => [⟨product_id, size, 1⟩]
  | it :: rest =>
      if it.product_id = product_id ∧ it.size = size then
        { it with qty := it.qty + 1 } :: rest
      else
        it :: addLine rest product_id size

/-- `add_to_cart` of the source: resolves the size through
`get_selected_size` and merges into the per-user list. -/
def add_to_cart (st : Option SessionDict) (items : List Item)
    (product_id : String) : List Item :=
  addLine items product_id (get_selected_size st product_id)

/-- In-place update `items[n]["qty"] = f(items[n]["qty"])`; out-of-range `n`
leaves the list unchanged (callers guard the range anyway). -/
def modifyQty (items : List Item) (n : Nat) (f : Int → Int) : List Item :=
  match items, n with
  | [], _ => []
  | it :: rest, 0 => { it with qty := f it.qty } :: rest
  | it :: rest, Nat.succ m => it :: modifyQty rest m f

/-- Python `items.pop(n)`'s effect on the list (out-of-range `n` unchanged;
callers guard the range). -/
def popAt (items : List Item) (n : Nat) : List Item :=
  match items, n with
  | [], _ => []
  | _ :: rest, 0 => rest
  | it :: rest, Nat.succ m => it :: popAt rest m

/-- The read `items[n]["qty"]` (0 if out of range; callers guard). -/
def getQty (items : List Item) (n : Nat) : Int :=
  match items, n with
  | [], _ => 0
  | it :: _, 0 => it.qty
  | _ :: rest, Nat.succ m => getQty rest m

/-- `inc_item` handler body on the per-user list: the guard
`if 0 <= idx < len(items)` then `items[idx]["qty"] += 1`. The index comes
from `int(...)` on callback data, hence `Int`. -/
def inc_item (items : List Item) (idx : Int) : List Item :=
  if 0 ≤ idx ∧ idx < (items.length : Int) then
    modifyQty items idx.toNat (fun q => q + 1)
  else items

/-- `dec_item` handler body: guarded `items[idx]["qty"] -= 1`, then
`items.pop(idx)` when the decremented quantity is `≤ 0`. -/
def dec_item (items : List Item) (idx : Int) : List Item :=
  if 0 ≤ idx ∧ idx < (items.length : Int) then
    let items2 := modifyQty items idx.toNat (fun q => q - 1)
    if getQty items2 idx.toNat ≤ 0 then popAt items2 idx.toNat else items2
  else items

/-- `del_item` handler body: guarded `items.pop(idx)`. -/
def del_item (items : List Item) (idx : Int) : List Item :=
  if 0 ≤ idx ∧ idx < (items.length : Int) then popAt items idx.toNat
  else items

/-- `clear_cart` handler body: `cart[uid] = []`. -/
def clear_cart : List Item := []

/-- Python `str.strip()`: drop leading and trailing whitespace. -/
def pyStrip (s : String) : String :=
  String.mk
    (((s.data.dropWhile Char.isWhitespace).reverse.dropWhile
        Char.isWhitespace).reverse)

/-- Python slicing `s[:n]` on a string (first `n` characters). -/
def pyTake (s : String) (n : Nat) : String := String.mk (s.data.take n)

/-- Python `"\n".join(lines)`. -/
def joinLines : List String → String
  | [] => ""
  | [x] => x
  | x :: xs => x ++ "\n" ++ joinLines xs

/-- The `re.sub(r"[^\d+]", "", raw.strip())` step of `normalize_phone`:
keep only digits and the plus sign. -/
def phone_strip (raw : String) : List Char :=
  (pyStrip raw).data.filter (fun c => c.isDigit || c == '+')

/-- The `if s.startswith("998"): s = "+" + s` step of `normalize_phone`. -/
def phone_rewrite (s : List Char) : List Char :=
  if s.take 3 = ['9', '9', '8'] then '+' :: s else s

/-- The test `re.fullmatch(r"\+998\d{9}", s)` on the kept characters. -/
def plus998Fullmatch : List Char → Bool
  | '+' :: '9' :: '9' :: '8' :: rest => rest.length == 9 && rest.all Char.isDigit
  | _ => false

/-- `normalize_phone` of the source: reject empty input, keep digits and
`+`, rewrite a leading `998` to `+998`, then accept via three ordered
tests — twelve digits starting `998` (returned as `+` plus the digits),
a full `\+998\d{9}` match, or a `+`-prefixed string with at least seven
digits — else `None`. -/
def normalize_phone (raw : String) : Option String :=
  if raw = "" then none
  else
    let s := phone_rewrite (phone_strip raw)
    let digits := s.filter Char.isDigit
    if digits.take 3 = ['9', '9', '8'] ∧ digits.length = 12 then
      some (String.mk ('+' :: digits))
    else if plus998Fullmatch s then
      some (String.mk s)
    else if s.take 1 = ['+'] ∧ 7 ≤ digits.length then
      some (String.mk s)
    else none

/-- Thousands grouping of Python's `f"{n:,}"` on the reversed digit list
(least-significant digit first): a comma after every three digits. -/
def commaGroupRev (ds : List Char) : List Char :=
  if _h : ds.length ≤ 3 then ds
  else ds.take 3 ++ ',' :: commaGroupRev (ds.drop 3)
termination_by ds.length
decreasing_by simp; omega

/-- Python `f"{n:,}"` for an `int`. -/
def pyCommaFormat (n : Int) : String :=
  let grouped := (commaGroupRev (Nat.toDigits 10 n.natAbs).reverse).reverse
  if n < 0 then String.mk ('-' :: grouped) else String.mk grouped

/-- The `.replace(",", " ")` applied by the source to each rendered line
(it hits commas in product names too, not only the number grouping). -/
def pyReplaceCommas (s : String) : String :=
  String.mk (s.toList.map (fun c => if c = ',' then ' ' else c))

/-- One numbered line of `format_cart` (1-based `idx`). -/
def fmtCartLine (prods : String → Product) (idx : Nat) (it : Item) : String :=
  let p := prods it.product_id
  let sum := p.price * it.qty
  pyReplaceCommas (toString idx ++ ") " ++ p.name ++ "\n   Размер: " ++
    toString it.size ++ " | Кол-во: " ++ toString it.qty ++ " | " ++
    pyCommaFormat sum ++ " сум")

/-- The enumeration loop of `format_cart` starting at line number `idx`. -/
def fmtCartLines (prods : String → Product) (idx : Nat) :
    List Item → List String
  | [] => []
  | it :: rest => fmtCartLine prods idx it :: fmtCartLines prods (idx + 1) rest

/-- The grand total accumulated by `format_cart`. -/
def cart_total (prods : String → Product) (items : List Item) : Int :=
  items.foldl (fun acc it => acc + (prods it.product_id).price * it.qty) 0

/-- `format_cart` of the source: the "Корзина пустая." sentinel for an
empty cart, else header, numbered lines and total joined with newlines. -/
def format_cart (prods : String → Product) (items : List Item) : String :=
  if items = [] then "Корзина пустая."
  else
    joinLines
      ("🧺 *Ваша корзина:*" :: fmtCartLines prods 1 items ++
        [pyReplaceCommas ("\n*Итого:* " ++ pyCommaFormat (cart_total prods items) ++ " сум")])

/-- Outbound effects of a handler, in emission order. `reply` is a message
to the acting user (`m.answer` / `c.answer`), `adminMessage` the order
notification `bot.send_message(ADMIN_CHAT_ID, ...)`, `adminContact` the
best-effort `bot.send_contact` (phone, first name). Keyboards, photos and
parse modes are rendering detail and are elided. -/
inductive Out where
  | reply : String → Out
  | adminMessage : String → Out
  | adminContact : String → String → Out
deriving DecidableEq, Repr

/-- Python exceptions that can escape or be raised inside a handler in the
modelled fragment: a dict `KeyError`, or a failed telegram send. -/
inductive PyExc where
  | keyError : PyExc
  | sendError : PyExc
deriving DecidableEq, Repr

/-- Result of running one message handler for one user: the user's cart
and session entry afterwards, the successfully delivered sends in order,
and the exception that escaped the handler, if any (Python mutations made
before the raise persist, so the state fields are meaningful either
way). -/
structure FlowResult where
  items : List Item
  session : Option SessionDict
  sent : List Out
  exc : Option PyExc
deriving DecidableEq, Repr

/-- The identity fields of the inbound message's `from_user` used by the
order message (`username` is `none` when the client has no handle). -/
structure Identity where
  username : Option String
  full_name : String
deriving DecidableEq, Repr

/-- Python truthiness of an optional string (`None` and `""` are falsy). -/
def truthyStr : Option String → Bool
  | some s => s != ""
  | none => false

def namePrompt : String := "Введите *имя*:\n(для отмены: /cancel)"

def phonePrompt : String :=
  "Введите *телефон* (например +998901234567):\n(для отмены: /cancel)"

def addressPrompt : String := "Введите *адрес доставки*:\n(для отмены: /cancel)"

def commentPrompt : String :=
  "Комментарий (если нет — напишите `-`):\n(для отмены: /cancel)"

def emptyInputMsg : String := "Пусто. Введите значение ещё раз."

def phoneErrMsg : String :=
  "Телефон неверный. Пример: +998901234567\nВведите телефон ещё раз:"

def emptyCartMsg : String := "Корзина пустая."

def cancelDoneMsg : String := "❌ Оформление заказа отменено."

def cancelNoneMsg : String := "Сейчас нет активного оформления."

def orderAcceptedMsg : String :=
  "✅ Заказ принят! Чтобы уточнить детали — нажмите кнопку и напишите менеджеру."

def catalogHeader : String := "🛍 *Каталог:*"

def welcomeMsg : String :=
  "Добро пожаловать в *Dunya Jewellery* 🩶\nВыберите действие:"

/-- The prompt dict literal indexed by `st["step"]` in the menu-label
branch of `checkout_flow`; `none` models the `KeyError` a foreign key
would raise. -/
def step_prompt (step : String) : Option String :=
  if step = "name" then some namePrompt
  else if step = "phone" then some phonePrompt
  else if step = "address" then some addressPrompt
  else if step = "comment" then some commentPrompt
  else none

/-- The `/cancel` handler on the user's session entry: pop the entry if
present and confirm, otherwise report that nothing is active. The cart is
not touched by this handler. -/
def cancel (st : Option SessionDict) : Option SessionDict × Out :=
  match st with
  | some _ => (none, Out.reply cancelDoneMsg)
  | none => (none, Out.reply cancelNoneMsg)

/-- The `checkout:start` handler: reject when `not cart.get(uid)` (absent
or empty cart), else install a fresh session `{"step": "name",
"data": {}}` carrying over `selected_sizes` from any previous entry. -/
def checkout_start (items : List Item) (st : Option SessionDict) :
    Option SessionDict × List Out :=
  if items = [] then (st, [Out.reply emptyCartMsg])
  else
    let prev := st.getD emptySessionDict
    let selected_sizes := prev.selected_sizes.getD []
    (some ⟨some "name", some emptyOrderData, some selected_sizes⟩,
      [Out.reply namePrompt])

/-- The tuple test `text in ("🛍 Каталог", "🧺 Корзина", "💬 Связаться")`. -/
def menu_label (text : String) : Bool :=
  text == "🛍 Каталог" || text == "🧺 Корзина" || text == "💬 Связаться"

/-- The admin order text assembled in the comment branch of
`checkout_flow` (the `msg = "\n".join([...])` block), for collected data
in which `name` and `address` are present (their absence would have
raised `KeyError` before this string is built). -/
def order_message (prods : String → Product) (uid : Nat) (ident : Identity)
    (data : OrderData) (items : List Item) : String :=
  let full_name := pyStrip ident.full_name
  let phone := data.phone.getD ""
  let username := ident.username.getD ""
  let link :=
    if truthyStr ident.username then "https://t.me/" ++ username
    else "нет (у клиента нет username)"
  joinLines
    [ "🧾 *Новый заказ Dunya Jewellery*",
      "Покупатель: " ++ data.name.getD "",
      "Телефон: " ++ phone,
      "Адрес: " ++ data.address.getD "",
      "Комментарий: " ++ data.comment.getD "",
      "",
      "👤 *Контакт клиента:*",
      (if full_name != "" then "Имя TG: " ++ full_name else "Имя TG: -"),
      "ID: `" ++ toString uid ++ "`",
      (if truthyStr ident.username then "Username: @" ++ username
       else "Username: (нет)"),
      "Ссылка: " ++ link,
      "",
      format_cart prods items ]

/-- The catch-all `checkout_flow` message handler on the acting user's
state. Mirrors the source line by line: bail out when the user has no
(truthy) `checkout_state` entry; strip the text; re-prompt on empty text;
re-prompt with the step's own prompt on a menu label; then branch on
`st["step"]` (a `KeyError` when absent) and run the per-step logic. In
the comment branch the comment is first recorded into the session's data,
then the admin order message is sent (raising `sendError` when
`primary_fails`, which escapes the handler with the mutations made so far
kept), the best-effort contact card is sent inside `try/except: pass`
(`secondary_fails` makes it fail silently), the confirmation is answered,
and only then the cart is emptied and the session entry popped. -/
def checkout_flow (prods : String → Product) (uid : Nat) (ident : Identity)
    (primary_fails secondary_fails : Bool) (items : List Item)
    (st0 : Option SessionDict) (raw_text : String) : FlowResult :=
  match st0 with
  | none => ⟨items, none, [], none⟩
  | some st =>
    let text := pyStrip raw_text
    if text = "" then ⟨items, some st, [Out.reply emptyInputMsg], none⟩
    else if menu_label text then
      match st.step with
      | none => ⟨items, some st, [], some PyExc.keyError⟩
      | some stp =>
        match step_prompt stp with
        | some p => ⟨items, some st, [Out.reply p], none⟩
        | none => ⟨items, some st, [], some PyExc.keyError⟩
    else
      match st.step, st.data with
      | some stp, some data =>
        if stp = "name" then
          let data2 := { data with name := some text }
          ⟨items, some { st with step := some "phone", data := some data2 },
            [Out.reply phonePrompt], none⟩
        else if stp = "phone" then
          match normalize_phone text with
          | none => ⟨items, some st, [Out.reply phoneErrMsg], none⟩
          | some normalized =>
            let data2 := { data with phone := some normalized }
            ⟨items, some { st with step := some "address", data := some data2 },
              [Out.reply addressPrompt], none⟩
        else if stp = "address" then
          let data2 := { data with address := some text }
          ⟨items, some { st with step := some "comment", data := some data2 },
            [Out.reply commentPrompt], none⟩
        else if stp = "comment" then
          let data2 := { data with comment := some text }
          let st2 := { st with data := some data2 }
          match data2.name, data2.address with
          | some nm, some _ =>
            if primary_fails then
              ⟨items, some st2, [], some PyExc.sendError⟩
            else
              let contact :=
                if secondary_fails then []
                else [Out.adminContact (data2.phone.getD "")
                        (if nm != "" then pyTake nm 64 else "Клиент")]
              ⟨[], none,
                Out.adminMessage (order_message prods uid ident data2 items)
                  :: contact ++ [Out.reply orderAcceptedMsg], none⟩
          | _, _ => ⟨items, some st2, [], some PyExc.keyError⟩
        else
          ⟨items, some st, [], none⟩
      | _, _ => ⟨items, some st, [], some PyExc.keyError⟩

/-- The aiogram `Command` filter for `/cmd`: the first whitespace-separated
token of the text is `/cmd`, optionally with a `@botname` mention. -/
def is_command (cmd : String) (text : String) : Bool :=
  let w := text.data.takeWhile (fun c => !c.isWhitespace)
  w == ("/" ++ cmd).data || (("/" ++ cmd ++ "@").data).isPrefixOf w

/-- The per-user state the text handlers read and write: the user's cart
list and `checkout_state` entry. -/
structure UserState where
  items : List Item
  session : Option SessionDict
deriving DecidableEq, Repr

/-- Dispatch of one inbound text message, in the source's handler
registration order under aiogram's first-matching-handler rule:
`/start`, then `/cancel`, then the three exact-match menu labels
(`show_catalog`, `contact`, `show_cart`), and only then the catch-all
`checkout_flow`. `manager` is the configured `MANAGER_USERNAME` shown by
the contact handler (its optional phone line is elided). -/
def handle_text (prods : String → Product) (manager : String) (uid : Nat)
    (ident : Identity) (primary_fails secondary_fails : Bool)
    (S : UserState) (text : String) : FlowResult :=
  if is_command "start" text then
    ⟨S.items, S.session, [Out.reply welcomeMsg], none⟩
  else if is_command "cancel" text then
    let r := cancel S.session
    ⟨S.items, r.1, [r.2], none⟩
  else if text == "🛍 Каталог" then
    ⟨S.items, S.session, [Out.reply catalogHeader], none⟩
  else if text == "💬 Связаться" then
    ⟨S.items, S.session, [Out.reply ("💬 Менеджер: @" ++ manager)], none⟩
  else if text == "🧺 Корзина" then
    ⟨S.items, S.session, [Out.reply (format_cart prods S.items)], none⟩
  else
    checkout_flow prods uid ident primary_fails secondary_fails
      S.items S.session text

/-- The `(productId, size)` identity of a cart line, the key of the
uniqueness invariant. -/
def lineKey (it : Item) : String × Int := (it.product_id, it.size)

/-- Cart states reachable from the initial (absent/empty) cart through
the cart operations of the source: `add_to_cart` (with whatever session
entry the user has at that moment), `inc_item`, `dec_item`, `del_item`
and `clear_cart` (the cart wipe on successful submission is the same
`cart[uid] = []`). -/
inductive CartReachable : List Item → Prop where
  | empty : CartReachable []
  | add (st : Option SessionDict) (pid : String) (c : List Item) :
      CartReachable c → CartReachable (add_to_cart st c pid)
  | inc (idx : Int) (c : List Item) :
      CartReachable c → CartReachable (inc_item c idx)
  | dec (idx : Int) (c : List Item) :
      CartReachable c → CartReachable (dec_item c idx)
  | del (idx : Int) (c : List Item) :
      CartReachable c → CartReachable (del_item c idx)
  | clear (c : List Item) : CartReachable c → CartReachable clear_cart

/-- Phone acceptance as the specification words it (this definition follows
the spec's characterization, for comparison against `normalize_phone`):
after the strip and the leading-998 rewrite, the input must be a full
`+998` followed by nine digits, or a `+`-prefixed string with at least
seven digits. -/
def claim_phone_accepts (raw : String) : Bool :=
  let s := phone_rewrite (phone_strip raw)
  plus998Fullmatch s ||
    (s.take 1 == ['+'] && decide (7 ≤ (s.filter Char.isDigit).length))

/-- Phone acceptance as `normalize_phone` actually decides it: a nonempty
input whose kept characters, after the leading-998 rewrite, either contain
exactly twelve digits beginning with 998 (regardless of where any `+`
signs sit), or start with `+` and contain at least seven digits. -/
def amended_phone_accepts (raw : String) : Bool :=
  let s := phone_rewrite (phone_strip raw)
  let digits := s.filter Char.isDigit
  decide (raw ≠ "") &&
    ((digits.take 3 == ['9', '9', '8'] && digits.length == 12) ||
     (s.take 1 == ['+'] && decide (7 ≤ digits.length)))

/-- Session entry after the user picks size 18 for product "x" with no
prior entry (scenario for the cancel claim). -/
def c1_sizes : SessionDict := set_selected_size none "x" 18

/-- Cart after adding product "x" with that selection in force. -/
def c1_cart : List Item := add_to_cart (some c1_sizes) [] "x"

/-- Session entry after `checkout:start` on that cart and selection. -/
def c1_started : Option SessionDict := (checkout_start c1_cart (some c1_sizes)).1

/-- Session entry after the `/cancel` handler runs on the started session. -/
def c1_after : Option SessionDict := (cancel c1_started).1

/-- One-product catalog used by the concrete checkout scenarios. -/
def c2_prods : String → Product := fun _ => ⟨"x", "Кольцо", 100000, "", ""⟩

/-- Identity of the test customer in the concrete checkout scenarios. -/
def c2_ident : Identity := ⟨some "user", "Ivan"⟩

/-- Session entry after picking size 18 for product "x" (scenario for the
size-persistence claim). -/
def c2_sizes : SessionDict := set_selected_size none "x" 18

/-- Cart after adding product "x" with that selection in force. -/
def c2_cart : List Item := add_to_cart (some c2_sizes) [] "x"

/-- Flow state after answering the NAME step of a checkout started on that
cart. -/
def c2_r1 : FlowResult :=
  checkout_flow c2_prods 1 c2_ident false false c2_cart
    (checkout_start c2_cart (some c2_sizes)).1 "Иван"

/-- Flow state after answering the PHONE step. -/
def c2_r2 : FlowResult :=
  checkout_flow c2_prods 1 c2_ident false false c2_r1.items c2_r1.session
    "+998901234567"

/-- Flow state after answering the ADDRESS step. -/
def c2_r3 : FlowResult :=
  checkout_flow c2_prods 1 c2_ident false false c2_r2.items c2_r2.session
    "Ташкент"

/-- Flow state after answering the COMMENT step: the submission completes
and the checkout entry is popped. -/
def c2_r4 : FlowResult :=
  checkout_flow c2_prods 1 c2_ident false false c2_r3.items c2_r3.session "-"

/-- A user mid-checkout at the NAME step with one line in the cart
(scenario for the menu-label claim). -/
def c9_state : UserState :=
  ⟨[⟨"x", 17, 1⟩], some ⟨some "name", some emptyOrderData, some []⟩⟩

/-- Collected data of a session that has reached the COMMENT step
(scenario for the submission-atomicity claim). -/
def c3_data : OrderData :=
  ⟨some "Анна", some "+998901234567", some "Ташкент", none⟩

/-- The session entry at the COMMENT step holding that data. -/
def c3_st : SessionDict := ⟨some "comment", some c3_data, some []⟩

/-- The cart being checked out in that scenario. -/
def c3_cart : List Item := [⟨"x", 17, 1⟩]

/-- Identity of a customer without a telegram username. -/
def c3_ident : Identity := ⟨none, "Anna"⟩

lemma addLine_qty (c : List Item) (pid : String) (sz : Int)
    (h : ∀ it ∈ c, 1 ≤ it.qty) : ∀ it ∈ addLine c pid sz, 1 ≤ it.qty := by
  induction c with
  | nil =>
    intro it hit
    simp only [addLine, List.mem_singleton] at hit
    simp [hit]
  | cons a rest ih =>
    intro it hit
    simp only [addLine] at hit
    split at hit
    · rcases List.mem_cons.mp hit with h1 | h2
      · have ha := h a (List.mem_cons_self a rest)
        rw [h1]
        show 1 ≤ a.qty + 1
        omega
      · exact h it (List.mem_cons_of_mem a h2)
    · rcases List.mem_cons.mp hit with h1 | h2
      · rw [h1]
        exact h a (List.mem_cons_self a rest)
      · exact ih (fun x hx => h x (List.mem_cons_of_mem a hx)) it h2

lemma addLine_map_key (c : List Item) (pid : String) (sz : Int) :
    (addLine c pid sz).map lineKey =
      c.map lineKey ++
        (if (pid, sz) ∈ c.map lineKey then [] else [(pid, sz)]) := by
  induction c with
  | nil => simp [addLine, lineKey]
  | cons a rest ih =>
    simp only [addLine]
    split
    · next hkey =>
      have hk : lineKey a = (pid, sz) := by
        show (a.product_id, a.size) = (pid, sz)
        rw [hkey.1, hkey.2]
      have hmem : (pid, sz) ∈ lineKey a :: List.map lineKey rest := by
        rw [hk]
        exact List.mem_cons_self _ _
      simp only [List.map_cons, if_pos hmem, List.append_nil]
      rfl
    · next hkey =>
      have hne : (pid, sz) ≠ lineKey a := by
        intro hcontra
        have h1 : pid = a.product_id := congrArg Prod.fst hcontra
        have h2 : sz = a.size := congrArg Prod.snd hcontra
        exact hkey ⟨h1.symm, h2.symm⟩
      by_cases hm : (pid, sz) ∈ rest.map lineKey
      · have hmem : (pid, sz) ∈ lineKey a :: List.map lineKey rest :=
          List.mem_cons_of_mem _ hm
        simp only [List.map_cons, ih, if_pos hm, if_pos hmem, List.append_nil]
      · have hmem : (pid, sz) ∉ lineKey a :: List.map lineKey rest := by
          intro hc
          rcases List.mem_cons.mp hc with h1 | h1
          · exact hne h1
          · exact hm h1
        simp only [List.map_cons, ih, if_neg hm, if_neg hmem, List.cons_append]

lemma addLine_nodup (c : List Item) (pid : String) (sz : Int)
    (h : (c.map lineKey).Nodup) : ((addLine c pid sz).map lineKey).Nodup := by
  rw [addLine_map_key]
  by_cases hm : (pid, sz) ∈ c.map lineKey
  · rw [if_pos hm, List.append_nil]
    exact h
  · rw [if_neg hm]
    refine List.Nodup.append h (List.nodup_singleton _) ?_
    intro x hx hy
    rw [List.mem_singleton] at hy
    rw [hy] at hx
    exact hm hx

lemma modifyQty_map_key (c : List Item) (n : Nat) (f : Int → Int) :
    (modifyQty c n f).map lineKey = c.map lineKey := by
  induction c generalizing n with
  | nil => rfl
  | cons a rest ih =>
    cases n with
    | zero => rfl
    | succ m => simp only [modifyQty, List.map_cons, ih m]

lemma modifyQty_qty (c : List Item) (n : Nat) (f : Int → Int)
    (hf : ∀ q, 1 ≤ q → 1 ≤ f q) (h : ∀ it ∈ c, 1 ≤ it.qty) :
    ∀ it ∈ modifyQty c n f, 1 ≤ it.qty := by
  induction c generalizing n with
  | nil => intro it hit; simp [modifyQty] at hit
  | cons a rest ih =>
    cases n with
    | zero =>
      intro it hit
      simp only [modifyQty] at hit
      rcases List.mem_cons.mp hit with h1 | h2
      · rw [h1]
        show 1 ≤ f a.qty
        exact hf a.qty (h a (List.mem_cons_self a rest))
      · exact h it (List.mem_cons_of_mem a h2)
    | succ m =>
      intro it hit
      simp only [modifyQty] at hit
      rcases List.mem_cons.mp hit with h1 | h2
      · rw [h1]
        exact h a (List.mem_cons_self a rest)
      · exact ih m (fun x hx => h x (List.mem_cons_of_mem a hx)) it h2

lemma popAt_sublist (c : List Item) (n : Nat) : List.Sublist (popAt c n) c := by
  induction c generalizing n with
  | nil => simp [popAt]
  | cons a rest ih =>
    cases n with
    | zero => exact List.Sublist.cons a (List.Sublist.refl rest)
    | succ m => exact List.Sublist.cons₂ a (ih m)

lemma popAt_modifyQty (c : List Item) (n : Nat) (f : Int → Int) :
    popAt (modifyQty c n f) n = popAt c n := by
  induction c generalizing n with
  | nil => rfl
  | cons a rest ih =>
    cases n with
    | zero => rfl
    | succ m => simp only [modifyQty, popAt, ih m]

lemma getQty_modifyQty (c : List Item) (n : Nat) (f : Int → Int)
    (h : n < c.length) : getQty (modifyQty c n f) n = f (getQty c n) := by
  induction c generalizing n with
  | nil => simp at h
  | cons a rest ih =>
    cases n with
    | zero => rfl
    | succ m => exact ih m (by simpa using h)

lemma dec_item_qty_aux (c : List Item) (n : Nat)
    (h : ∀ it ∈ c, 1 ≤ it.qty) :
    ∀ it ∈ (if getQty (modifyQty c n (fun q => q - 1)) n ≤ 0
            then popAt (modifyQty c n (fun q => q - 1)) n
            else modifyQty c n (fun q => q - 1)), 1 ≤ it.qty := by
  induction c generalizing n with
  | nil =>
    intro it hit
    simp only [modifyQty, popAt, getQty] at hit
    split at hit <;> exact absurd hit (List.not_mem_nil it)
  | cons a rest ih =>
    cases n with
    | zero =>
      intro it hit
      simp only [modifyQty, getQty, popAt] at hit
      split at hit
      · exact h it (List.mem_cons_of_mem a hit)
      · next hq =>
        rcases List.mem_cons.mp hit with h1 | h2
        · rw [h1]
          show 1 ≤ a.qty - 1
          have hq' : ¬ a.qty - 1 ≤ 0 := hq
          omega
        · exact h it (List.mem_cons_of_mem a h2)
    | succ m =>
      intro it hit
      have ih' := ih m (fun x hx => h x (List.mem_cons_of_mem a hx))
      simp only [modifyQty, getQty, popAt] at hit
      split at hit
      · next hc =>
        rcases List.mem_cons.mp hit with h1 | h2
        · rw [h1]
          exact h a (List.mem_cons_self a rest)
        · rw [if_pos hc] at ih'
          exact ih' it h2
      · next hc =>
        rcases List.mem_cons.mp hit with h1 | h2
        · rw [h1]
          exact h a (List.mem_cons_self a rest)
        · rw [if_neg hc] at ih'
          exact ih' it h2

lemma inc_item_map_key (c : List Item) (idx : Int) :
    (inc_item c idx).map lineKey = c.map lineKey := by
  unfold inc_item
  split
  · exact modifyQty_map_key c idx.toNat _
  · rfl

lemma inc_item_qty (c : List Item) (idx : Int) (h : ∀ it ∈ c, 1 ≤ it.qty) :
    ∀ it ∈ inc_item c idx, 1 ≤ it.qty := by
  unfold inc_item
  split
  · exact modifyQty_qty c idx.toNat _ (fun q hq => by omega) h
  · exact h

lemma dec_item_qty (c : List Item) (idx : Int) (h : ∀ it ∈ c, 1 ≤ it.qty) :
    ∀ it ∈ dec_item c idx, 1 ≤ it.qty := by
  unfold dec_item
  split
  · exact dec_item_qty_aux c idx.toNat h
  · exact h

lemma dec_item_nodup (c : List Item) (idx : Int)
    (h : (c.map lineKey).Nodup) : ((dec_item c idx).map lineKey).Nodup := by
  unfold dec_item
  split
  · show ((if getQty (modifyQty c idx.toNat (fun q => q - 1)) idx.toNat ≤ 0
          then popAt (modifyQty c idx.toNat (fun q => q - 1)) idx.toNat
          else modifyQty c idx.toNat (fun q => q - 1)).map lineKey).Nodup
    split
    · refine List.Nodup.sublist (List.Sublist.map lineKey ?_) h
      rw [popAt_modifyQty]
      exact popAt_sublist c idx.toNat
    · rw [modifyQty_map_key]
      exact h
  · exact h

lemma del_item_sublist (c : List Item) (idx : Int) :
    List.Sublist (del_item c idx) c := by
  unfold del_item
  split
  · exact popAt_sublist c idx.toNat
  · exact List.Sublist.refl c

lemma cart_inv_preserved (c : List Item) (h : CartReachable c) :
    (∀ it ∈ c, 1 ≤ it.qty) ∧ (c.map lineKey).Nodup := by
  induction h with
  | empty => simp
  | add st pid c _ ih =>
    exact ⟨addLine_qty c pid _ ih.1, addLine_nodup c pid _ ih.2⟩
  | inc idx c _ ih =>
    refine ⟨inc_item_qty c idx ih.1, ?_⟩
    rw [inc_item_map_key]
    exact ih.2
  | dec idx c _ ih =>
    exact ⟨dec_item_qty c idx ih.1, dec_item_nodup c idx ih.2⟩
  | del idx c _ ih =>
    exact ⟨fun it hit => ih.1 it ((del_item_sublist c idx).subset hit),
      List.Nodup.sublist (List.Sublist.map lineKey (del_item_sublist c idx)) ih.2⟩
  | clear c _ _ => simp [clear_cart]

lemma plus998_digits (s : List Char) (h : plus998Fullmatch s = true) :
    (s.filter Char.isDigit).take 3 = ['9', '9', '8'] ∧
    (s.filter Char.isDigit).length = 12 := by
  unfold plus998Fullmatch at h
  split at h
  · next rest =>
    rw [Bool.and_eq_true] at h
    have h1 : rest.length = 9 := by simpa using h.1
    have h2 : ∀ c ∈ rest, c.isDigit = true := by
      simpa [List.all_eq_true] using h.2
    have hfil : rest.filter Char.isDigit = rest := List.filter_eq_self.mpr h2
    have hplus : Char.isDigit '+' = false := by decide
    have h9 : Char.isDigit '9' = true := by decide
    have h8 : Char.isDigit '8' = true := by decide
    constructor
    · simp [List.filter_cons, hplus, h9, h8, hfil]
    · simp [List.filter_cons, hplus, h9, h8, hfil, h1]
  · exact absurd h (by simp)

lemma normalize_phone_isSome (raw : String) :
    (normalize_phone raw).isSome = true ↔
      (raw ≠ "" ∧
        ((((phone_rewrite (phone_strip raw)).filter Char.isDigit).take 3 =
            ['9', '9', '8'] ∧
          ((phone_rewrite (phone_strip raw)).filter Char.isDigit).length = 12) ∨
         ((phone_rewrite (phone_strip raw)).take 1 = ['+'] ∧
          7 ≤ ((phone_rewrite (phone_strip raw)).filter Char.isDigit).length))) := by
  simp only [normalize_phone]
  by_cases h0 : raw = ""
  · simp [h0]
  · rw [if_neg h0]
    by_cases hA : ((phone_rewrite (phone_strip raw)).filter Char.isDigit).take 3 =
        ['9', '9', '8'] ∧
        ((phone_rewrite (phone_strip raw)).filter Char.isDigit).length = 12
    · rw [if_pos hA]
      simp [h0, hA]
    · rw [if_neg hA]
      by_cases hB : plus998Fullmatch (phone_rewrite (phone_strip raw)) = true
      · exact absurd (plus998_digits _ hB) hA
      · rw [if_neg hB]
        by_cases hC : (phone_rewrite (phone_strip raw)).take 1 = ['+'] ∧
            7 ≤ ((phone_rewrite (phone_strip raw)).filter Char.isDigit).length
        · rw [if_pos hC]
          simp [h0, hC]
        · rw [if_neg hC]
          simp only [Option.isSome_none, Bool.false_eq_true, false_iff]
          rintro ⟨_, hA' | hC'⟩
          · exact hA hA'
          · exact hC hC'

lemma amended_phone_accepts_iff (raw : String) :
    amended_phone_accepts raw = true ↔
      (raw ≠ "" ∧
        ((((phone_rewrite (phone_strip raw)).filter Char.isDigit).take 3 =
            ['9', '9', '8'] ∧
          ((phone_rewrite (phone_strip raw)).filter Char.isDigit).length = 12) ∨
         ((phone_rewrite (phone_strip raw)).take 1 = ['+'] ∧
          7 ≤ ((phone_rewrite (phone_strip raw)).filter Char.isDigit).length))) := by
  simp [amended_phone_accepts, Bool.and_eq_true, Bool.or_eq_true,
    decide_eq_true_eq]

/-- Claim C5 (confirmed): every cart state reachable through the cart
operations has at most one line per (productId, size) pair and quantity
≥ 1 on every line, and two `add_to_cart` calls on a fresh cart for the
same product under the same selection yield exactly one line with
quantity 2. -/
theorem C5_cart_uniqueness_invariant (c : List Item) (h : CartReachable c) :
    ((∀ it ∈ c, 1 ≤ it.qty) ∧ (c.map lineKey).Nodup) ∧
    (∀ (st : Option SessionDict) (pid : String),
      add_to_cart st (add_to_cart st [] pid) pid =
        [⟨pid, get_selected_size st pid, 2⟩]) := by
  refine ⟨cart_inv_preserved c h, ?_⟩
  intro st pid
  simp [add_to_cart, addLine]

theorem C5_cart_uniqueness_invariant_witness :
    CartReachable (add_to_cart none [] "ring-1") ∧
    (((∀ it ∈ add_to_cart none [] "ring-1", 1 ≤ it.qty) ∧
      ((add_to_cart none [] "ring-1").map lineKey).Nodup) ∧
     (∀ (st : Option SessionDict) (pid : String),
       add_to_cart st (add_to_cart st [] pid) pid =
         [⟨pid, get_selected_size st pid, 2⟩])) :=
  ⟨CartReachable.add none "ring-1" [] CartReachable.empty,
   C5_cart_uniqueness_invariant _
     (CartReachable.add none "ring-1" [] CartReachable.empty)⟩

/-- Claim C6 (confirmed): decrementing an in-range line whose resulting
quantity would be ≤ 0 removes the line entirely (the result is the list
with that position popped), and no reachable cart state contains a line
with quantity ≤ 0. -/
theorem C6_dec_to_zero_removes_line (c : List Item) (idx : Int)
    (hrange : 0 ≤ idx ∧ idx < (c.length : Int))
    (hq : getQty c idx.toNat - 1 ≤ 0) :
    dec_item c idx = popAt c idx.toNat ∧
    (∀ d, CartReachable d → ∀ it ∈ d, ¬ it.qty ≤ 0) := by
  constructor
  · unfold dec_item
    rw [if_pos hrange]
    show (if getQty (modifyQty c idx.toNat (fun q => q - 1)) idx.toNat ≤ 0
          then popAt (modifyQty c idx.toNat (fun q => q - 1)) idx.toNat
          else modifyQty c idx.toNat (fun q => q - 1)) = popAt c idx.toNat
    split
    · exact popAt_modifyQty c idx.toNat _
    · next hcond =>
      exfalso
      apply hcond
      have hlen : idx.toNat < c.length := by omega
      rw [getQty_modifyQty c idx.toNat _ hlen]
      show getQty c idx.toNat - 1 ≤ 0
      exact hq
  · intro d hd it hit
    have := (cart_inv_preserved d hd).1 it hit
    omega

theorem C6_dec_to_zero_removes_line_witness :
    ((0 : Int) ≤ 0 ∧ (0 : Int) < (([⟨"x", 17, 1⟩] : List Item).length : Int)) ∧
    getQty [⟨"x", 17, 1⟩] (0 : Int).toNat - 1 ≤ 0 ∧
    (dec_item [⟨"x", 17, 1⟩] 0 = popAt [⟨"x", 17, 1⟩] (0 : Int).toNat ∧
     (∀ d, CartReachable d → ∀ it ∈ d, ¬ it.qty ≤ 0)) :=
  ⟨by decide, by decide,
   C6_dec_to_zero_removes_line [⟨"x", 17, 1⟩] 0 (by decide) (by decide)⟩

/-- Claim C7 (confirmed): with an index outside `[0, length)` each of the
increment, decrement and remove handlers returns the cart unchanged (the
guard makes them total no-ops; no exception path exists in the model). -/
theorem C7_out_of_range_noop (c : List Item) (idx : Int)
    (h : ¬ (0 ≤ idx ∧ idx < (c.length : Int))) :
    inc_item c idx = c ∧ dec_item c idx = c ∧ del_item c idx = c := by
  unfold inc_item dec_item del_item
  rw [if_neg h, if_neg h, if_neg h]
  exact ⟨rfl, rfl, rfl⟩

theorem C7_out_of_range_noop_witness :
    ¬ ((0 : Int) ≤ 5 ∧ (5 : Int) < (([⟨"ring-1", 17, 2⟩] : List Item).length : Int)) ∧
    (inc_item [⟨"ring-1", 17, 2⟩] 5 = [⟨"ring-1", 17, 2⟩] ∧
     dec_item [⟨"ring-1", 17, 2⟩] 5 = [⟨"ring-1", 17, 2⟩] ∧
     del_item [⟨"ring-1", 17, 2⟩] 5 = [⟨"ring-1", 17, 2⟩]) :=
  ⟨by decide, C7_out_of_range_noop [⟨"ring-1", 17, 2⟩] 5 (by decide)⟩

/-- Claim C8 (confirmed): `checkout:start` on an empty (or absent) cart
answers the short "Корзина пустая." notice and leaves the user's checkout
entry exactly as it was — no session is created. -/
theorem C8_empty_cart_checkout_rejected (st : Option SessionDict) :
    checkout_start [] st = (st, [Out.reply emptyCartMsg]) := by
  simp [checkout_start]

/-- Claim C10 (confirmed): `checkout:start` for a user with a non-empty
cart and an existing checkout entry replaces it: the step is reset to
"name", the collected data is reset to the empty dict, and only the
stored size selections are carried over. -/
theorem C10_restart_replaces_session (items : List Item) (st : SessionDict)
    (h : items ≠ []) :
    checkout_start items (some st) =
      (some ⟨some "name", some emptyOrderData,
         some (st.selected_sizes.getD [])⟩,
       [Out.reply namePrompt]) := by
  unfold checkout_start
  rw [if_neg h]
  rfl

theorem C10_restart_replaces_session_witness :
    ([⟨"x", 18, 1⟩] : List Item) ≠ [] ∧
    checkout_start [⟨"x", 18, 1⟩]
        (some ⟨some "phone", some ⟨some "Иван", none, none, none⟩,
          some [("x", 18)]⟩) =
      (some ⟨some "name", some emptyOrderData, some [("x", 18)]⟩,
       [Out.reply namePrompt]) :=
  ⟨by decide,
   C10_restart_replaces_session [⟨"x", 18, 1⟩]
     ⟨some "phone", some ⟨some "Иван", none, none, none⟩, some [("x", 18)]⟩
     (by decide)⟩

/-- Claim C1 (refuted by the code): `/cancel` pops the user's whole
`checkout_state` entry, and the size-selection memory lives inside that
entry — so after picking size 18 for "x", adding it, starting checkout
and cancelling, the cart is indeed untouched but a size lookup returns
the default 17 and a re-add resolves size 17, not 18. -/
theorem C1_cancel_destroys_size_memory :
    get_selected_size (some c1_sizes) "x" = 18 ∧
    c1_cart = [⟨"x", 18, 1⟩] ∧
    c1_started = some ⟨some "name", some emptyOrderData, some [("x", 18)]⟩ ∧
    c1_after = none ∧
    get_selected_size c1_after "x" = 17 ∧
    add_to_cart c1_after c1_cart "x" = [⟨"x", 18, 1⟩, ⟨"x", 17, 1⟩] := by
  decide

/-- Claim C2 (refuted by the code): the size selection survives a cart
clear, but completing a checkout pops the whole `checkout_state` entry
including `selected_sizes` — after picking size 18 for "x" and completing
a checkout, a size lookup returns the default 17 and a re-add yields a
line at size 17, not 18. -/
theorem C2_size_memory_lost_after_submission :
    add_to_cart (some c2_sizes) clear_cart "x" = [⟨"x", 18, 1⟩] ∧
    c2_r4.exc = none ∧ c2_r4.items = [] ∧ c2_r4.session = none ∧
    get_selected_size c2_r4.session "x" = 17 ∧
    add_to_cart c2_r4.session c2_r4.items "x" = [⟨"x", 17, 1⟩] := by
  decide

/-- Claim C4, counterexample: the input "9+98901234567" is, after the
strip, neither a full `+998` pattern nor `+`-prefixed (and the leading-998
rewrite does not fire), so the spec's characterization rejects it — yet
`normalize_phone` accepts it through the twelve-digit branch. -/
theorem C4_counterexample_phone :
    claim_phone_accepts "9+98901234567" = false ∧
    normalize_phone "9+98901234567" = some "+998901234567" := by
  decide

/-- Claim C4 as amended (proved): `normalize_phone` accepts exactly the
nonempty inputs whose kept characters, after the leading-998 rewrite,
either contain exactly twelve digits beginning 998 or start with `+` and
contain at least seven digits; the three examples of the claim behave as
stated. -/
theorem C4_phone_normalization_amended :
    (∀ raw : String,
      (normalize_phone raw).isSome = amended_phone_accepts raw) ∧
    normalize_phone "998901234567" = some "+998901234567" ∧
    normalize_phone "+998 90 123 45 67" = some "+998901234567" ∧
    normalize_phone "abc" = none := by
  refine ⟨?_, by decide, by decide, by decide⟩
  intro raw
  exact Bool.eq_iff_iff.mpr
    ((normalize_phone_isSome raw).trans (amended_phone_accepts_iff raw).symm)

/-- Claim C9 (refuted by the code): with a checkout session at the NAME
step, the inbound text "🛍 Каталог" is consumed by the earlier-registered
catalog handler, so the session stays unchanged but the catalog — not the
step's prompt — is emitted; the interception branch inside
`checkout_flow` (which would re-prompt as the spec describes) is
unreachable for exact menu-label texts, while the empty-input half of the
claim does hold through the dispatcher. -/
theorem C9_menu_label_routed_to_catalog :
    handle_text c2_prods "mgr" 1 c2_ident false false c9_state "🛍 Каталог" =
      ⟨c9_state.items, c9_state.session, [Out.reply catalogHeader], none⟩ ∧
    catalogHeader ≠ namePrompt ∧
    checkout_flow c2_prods 1 c2_ident false false c9_state.items
        c9_state.session "🛍 Каталог" =
      ⟨c9_state.items, c9_state.session, [Out.reply namePrompt], none⟩ ∧
    handle_text c2_prods "mgr" 1 c2_ident false false c9_state "   " =
      ⟨c9_state.items, c9_state.session, [Out.reply emptyInputMsg], none⟩ := by
  decide

/-- Claim C3, counterexample: when the primary order notification fails,
the failure does propagate and the cart is unchanged, but the session is
not left unchanged — the comment was recorded into its collected data
before the send, so the resulting session differs from the one the step
started with. -/
theorem C3_counterexample_session_mutated :
    (checkout_flow c2_prods 7 c3_ident true false c3_cart (some c3_st)
        "ok").exc = some PyExc.sendError ∧
    (checkout_flow c2_prods 7 c3_ident true false c3_cart (some c3_st)
        "ok").items = c3_cart ∧
    (checkout_flow c2_prods 7 c3_ident true false c3_cart (some c3_st)
        "ok").session ≠ some c3_st := by
  decide

/-- Claim C3 as amended (proved): a COMMENT-step session with collected
name and address, receiving non-empty non-menu-label text, behaves as
follows — if the primary order notification succeeds, the order message
is dispatched and in the same handler run the cart is cleared and the
session destroyed (a secondary contact-send failure only drops that
best-effort send and is otherwise ignored); if the primary notification
fails, the exception propagates, the cart and the session's step and
previously collected fields are unchanged, except that the submitted
comment has already been recorded in the session's data. -/
theorem C3_submission_atomicity_amended
    (prods : String → Product) (uid : Nat) (ident : Identity)
    (secondary_fails : Bool) (items : List Item) (st : SessionDict)
    (data : OrderData) (text nm addr : String)
    (hstep : st.step = some "comment") (hdata : st.data = some data)
    (hnm : data.name = some nm) (haddr : data.address = some addr)
    (hne : ¬ pyStrip text = "") (hmenu : menu_label (pyStrip text) = false) :
    checkout_flow prods uid ident false secondary_fails items (some st) text =
      ⟨[], none,
        Out.adminMessage (order_message prods uid ident
            { data with comment := some (pyStrip text) } items) ::
          ((if secondary_fails then []
            else [Out.adminContact (data.phone.getD "")
                    (if nm != "" then pyTake nm 64 else "Клиент")]) ++
           [Out.reply orderAcceptedMsg]), none⟩ ∧
    checkout_flow prods uid ident true secondary_fails items (some st) text =
      ⟨items,
        some { st with
          data := some { data with comment := some (pyStrip text) } },
        [], some PyExc.sendError⟩ := by
  obtain ⟨stp0, dat0, sizes0⟩ := st
  obtain ⟨dn0, dp0, da0, dc0⟩ := data
  simp only [SessionDict.step] at hstep
  simp only [SessionDict.data] at hdata
  simp only [OrderData.name] at hnm
  simp only [OrderData.address] at haddr
  subst hstep hdata hnm haddr
  constructor <;>
  · simp only [checkout_flow]
    rw [if_neg hne]
    simp only [hmenu, Bool.false_eq_true, if_false]
    simp [hne]

theorem C3_submission_atomicity_amended_witness :
    (c3_st.step = some "comment" ∧ c3_st.data = some c3_data ∧
     c3_data.name = some "Анна" ∧ c3_data.address = some "Ташкент" ∧
     ¬ pyStrip "ok" = "" ∧ menu_label (pyStrip "ok") = false) ∧
    checkout_flow c2_prods 7 c3_ident false false c3_cart (some c3_st)
        "ok" =
      ⟨[], none,
        [Out.adminMessage (order_message c2_prods 7 c3_ident
           ⟨some "Анна", some "+998901234567", some "Ташкент", some "ok"⟩
           c3_cart),
         Out.adminContact "+998901234567" "Анна",
         Out.reply orderAcceptedMsg], none⟩ ∧
    checkout_flow c2_prods 7 c3_ident true false c3_cart (some c3_st)
        "ok" =
      ⟨c3_cart,
        some ⟨some "comment",
          some ⟨some "Анна", some "+998901234567", some "Ташкент", some "ok"⟩,
          some []⟩,
        [], some PyExc.sendError⟩ :=
  ⟨⟨rfl, rfl, rfl, rfl, by decide, by decide⟩,
   (C3_submission_atomicity_amended c2_prods 7 c3_ident false c3_cart c3_st
      c3_data "ok" "Анна" "Ташкент" rfl rfl rfl rfl (by decide)
      (by decide)).1,
   (C3_submission_atomicity_amended c2_prods 7 c3_ident false c3_cart c3_st
      c3_data "ok" "Анна" "Ташкент" rfl rfl rfl rfl (by decide)
      (by decide)).2⟩

end BotChat
